import Mathlib

/-!
Shallow embedding of the session / query-streaming orchestrator of the
codebase-rag frontend.

Embedded source locations:
* `src/frontend/src/context/SessionProvider.tsx` (= `src/unnamed/part_011`):
  `createSession`, `addMessageToSession`, `updateSessionMessage`,
  `deleteSession`.
* `src/frontend/src/components/ui/notification-banner.tsx` (`ChatPage.handleSubmit`):
  the WebSocket `onmessage` / `onerror` frame handler.
* `src/unnamed/part_014` (`useGithubUrl.uploadUrl`) and
  `src/frontend/src/components/layout/Sidebar.tsx` (sessionId effect,
  `handleCreateSession`, `handleUploadComplete`).
* `src/unnamed/part_016` (`UploadProgress` simulated stage machine).

Modelling conventions:
* JS ISO-string timestamps (`new Date().toISOString()`, `Date.now()`) are an
  abstract clock, modelled as `Nat` values passed explicitly (`now`).
* A JS object field that may be absent is `Option`; a field that may be
  present-but-`undefined` (relevant for the `metric` key of an update patch,
  because `{...message, ...patch}` overwrites `metric` even when
  `patch.metric` is `undefined`) is `Option (Option _)`: `none` = key absent,
  `some none` = key present with value `undefined`.
* JS truthiness of strings (`data.partial_response`, `data.message || d`) is
  modelled by explicit `= ""` tests / `jsOr`.
* Network calls are parameterised by their outcome (`Bool` / `Option`),
  since the embedding is of the client logic, not of the backend.
-/

namespace CodebaseRag

/-- Message role: the `type` field of a message, `'user' | 'bot'`. -/
inductive Role where
  | user : Role
  | bot : Role
deriving DecidableEq, Repr

/-- Opaque metrics payload (`QueryMetrics` in `types/index.ts`); its structure
is irrelevant to the orchestrator, which only stores/replaces it whole, so it
is carried as an opaque tag. -/
structure QueryMetrics where
  tag : Nat
deriving DecidableEq, Repr

/-- A chat message (`Session.messages` element in `SessionProvider.tsx`). -/
structure Message where
  id : String
  role : Role
  text : String
  timestamp : Nat
  metric : Option QueryMetrics
deriving DecidableEq, Repr

/-- A session record (`Session` in `types`, as constructed by
`createSession` in `SessionProvider.tsx`). -/
structure Session where
  session_id : String
  project_name : String
  messages : List Message
  createdAt : Nat
  lastActive : Nat
deriving DecidableEq, Repr

/-- The SessionProvider's state: the `sessions` array plus
`currentSessionId`. -/
structure CatalogState where
  sessions : List Session
  currentSessionId : Option String
deriving DecidableEq, Repr

/-- JS `a || b` for an optional string `a`: `undefined` and `""` are falsy. -/
def jsOr (a : Option String) (b : String) : String :=
  match a with
  | none => b
  | some s => if s = "" then b else s

/-- `SessionProvider.createSession(name, id)` (part_011:97-109): append a
fresh session and set it active. -/
def createSession (st : CatalogState) (name id : String) (now : Nat) : CatalogState :=
  { sessions := st.sessions ++
      [{ session_id := id, project_name := name, messages := [],
         createdAt := now, lastActive := now }]
    currentSessionId := some id }

/-- Argument object of `addMessageToSession`:
`{ type, text, metric?, id? }`. -/
structure NewMessage where
  role : Role
  text : String
  metric : Option QueryMetrics
  id : Option String
deriving DecidableEq, Repr

/-- `SessionProvider.addMessageToSession(sessionId, message)`
(part_011:111-132): append to the matching session's message list, using the
given id if truthy (`message.id || <generated>`), and touch `lastActive`.
`genId` stands for the generated fallback id. -/
def addMessageToSession (st : CatalogState) (sessionId : String)
    (message : NewMessage) (genId : String) (now : Nat) : CatalogState :=
  { st with sessions := st.sessions.map fun session =>
      if session.session_id = sessionId then
        { session with
          messages := session.messages ++
            [{ id := jsOr message.id genId
               role := message.role
               text := message.text
               timestamp := now
               metric := message.metric }]
          lastActive := now }
      else session }

/-- Argument object of `updateSessionMessage`:
`{ type, text, metric?: QueryMetrics }`.  The `metric` key may be absent
(`none`), or present with a possibly-`undefined` value (`some m`). -/
structure UpdatedMessage where
  role : Role
  text : String
  metric : Option (Option QueryMetrics)
deriving DecidableEq, Repr

/-- `SessionProvider.updateSessionMessage(sessionId, messageId, updatedMessage)`
(part_011:135-159): inside the matching session, rewrite every message whose
`id` matches with `{...message, ...updatedMessage, id: messageId,
timestamp: message.timestamp}`, and refresh the session's `lastActive`. -/
def updateSessionMessage (st : CatalogState) (sessionId messageId : String)
    (updatedMessage : UpdatedMessage) (now : Nat) : CatalogState :=
  { st with sessions := st.sessions.map fun session =>
      if session.session_id = sessionId then
        { session with
          messages := session.messages.map fun message =>
            if message.id = messageId then
              { id := messageId
                role := updatedMessage.role
                text := updatedMessage.text
                timestamp := message.timestamp
                metric := match updatedMessage.metric with
                  | some m => m
                  | none => message.metric }
            else message
          lastActive := now }
      else session }

/-- `SessionProvider.deleteSession(sessionId)` (part_011:196-227): the backend
call happens first (`backendOk` is its outcome); on failure the error is
rethrown and no local state changes.  On success the session is filtered out,
and if it was the active one the new active id is
`remainingSessions[0].session_id` (or `null` if none remain); the remaining
list is computed from the pre-delete `sessions` value captured by the
closure. -/
def deleteSession (st : CatalogState) (sessionId : String) (backendOk : Bool) :
    Except Unit CatalogState :=
  if backendOk then
    let newSessions := st.sessions.filter fun s => s.session_id ≠ sessionId
    if st.currentSessionId = some sessionId then
      match st.sessions.filter (fun s => s.session_id ≠ sessionId) with
      | [] => Except.ok { sessions := newSessions, currentSessionId := none }
      | first :: _ =>
          Except.ok { sessions := newSessions, currentSessionId := some first.session_id }
    else
      Except.ok { st with sessions := newSessions }
  else
    Except.error ()

/-- Look a session up by id (`sessions.find(s => s.session_id === sid)`). -/
def findSession (st : CatalogState) (sid : String) : Option Session :=
  st.sessions.find? fun s => s.session_id = sid

/-- Look a message up by id within a session. -/
def findMessage (s : Session) (mid : String) : Option Message :=
  s.messages.find? fun m => m.id = mid

/-! ## Query stream orchestrator
`handleSubmit` in `notification-banner.tsx` (lines 331-482): the submit-time
side effects and the WebSocket `onmessage` / `onerror` handlers. -/

/-- One inbound frame of the duplex query stream (§6 of the wire contract):
exactly one of `{error}`, `{limit_reached, message?}`, `{partial_response}`,
`{metric}`, `{complete}`. -/
inductive Frame where
  | errorFrame (error : String)
  | limitFrame (message : Option String)
  | partialFrame (fragment : String)
  | metricFrame (metric : QueryMetrics)
  | completeFrame
deriving DecidableEq, Repr

/-- The handler's closure state during one submitted question: the shared
catalog plus the local variables of `handleSubmit` (`botMessage`,
`currentMetrics`), the page-level `limitReachedMessage` / `isPending`, and
the socket's lifecycle.  `closed` records that `ws.close()` was called:
per the WebSocket platform contract, once the socket readyState has left
OPEN no further `onmessage` events are delivered, so a frame arriving after
`close()` is discarded. -/
structure StreamState where
  catalog : CatalogState
  botMessage : String
  currentMetrics : Option QueryMetrics
  closed : Bool
  limitReachedMessage : Option String
  isPending : Bool
deriving DecidableEq, Repr

/-- The default limit notice in the `limit_reached` branch. -/
def dailyLimitMsg : String := "You have reached your daily limit."

/-- The notice appended by `ws.onerror`. -/
def connectionErrorMsg : String := "\n\nConnection error occurred."

/-- `ws.onmessage` (notification-banner.tsx:400-457), with the session id and
bot-message id captured at submit time.  Branches in source order:
`data.error` (truthy ⇒ overwrite text with `Error: ...`, close, return — an
empty error string is falsy, so the frame falls through every branch and is
a no-op); `data.limit_reached` (banner + overwrite text with
`data.message || default`, close, return); `data.partial_response` (truthy ⇒
accumulate and update with `metric: currentMetrics`); `data.metric` (replace
`currentMetrics`, update); `data.complete` (close).  The error/limit update
objects carry no `metric` key; the partial/metric updates carry one
(possibly `undefined`). -/
def onMessage (sid mid : String) (now : Nat) (st : StreamState) (frame : Frame) :
    StreamState :=
  if st.closed then st
  else
    match frame with
    | .errorFrame error =>
        if error = "" then st
        else
          { st with
            catalog := updateSessionMessage st.catalog sid mid
              { role := .bot, text := "Error: " ++ error, metric := none } now
            closed := true }
    | .limitFrame message =>
        let text := jsOr message dailyLimitMsg
        { st with
          limitReachedMessage := some text
          isPending := false
          catalog := updateSessionMessage st.catalog sid mid
            { role := .bot, text := text, metric := none } now
          closed := true }
    | .partialFrame fragment =>
        if fragment = "" then st
        else
          let botMessage := st.botMessage ++ fragment
          { st with
            botMessage := botMessage
            catalog := updateSessionMessage st.catalog sid mid
              { role := .bot, text := botMessage,
                metric := some st.currentMetrics } now }
    | .metricFrame metric =>
        { st with
          currentMetrics := some metric
          catalog := updateSessionMessage st.catalog sid mid
            { role := .bot, text := st.botMessage,
              metric := some (some metric) } now }
    | .completeFrame => { st with closed := true }

/-- `ws.onerror` (notification-banner.tsx:460-469): append the connection
error notice to the accumulated text and update, carrying
`metric: currentMetrics`. -/
def onError (sid mid : String) (now : Nat) (st : StreamState) : StreamState :=
  { st with
    catalog := updateSessionMessage st.catalog sid mid
      { role := .bot, text := st.botMessage ++ connectionErrorMsg,
        metric := some st.currentMetrics } now
    isPending := false }

/-- Deliver a list of frames in receipt order. -/
def processFrames (sid mid : String) (now : Nat) (st : StreamState)
    (frames : List Frame) : StreamState :=
  frames.foldl (onMessage sid mid now) st

/-- The submit-time side effects of `handleSubmit` (notification-banner.tsx:
353-367) once the local validations passed: append the user message (with a
generated id `userMsgId`), then append the empty bot placeholder with the
freshly generated correlation id `botMessageId`, and initialise the handler's
local state (`botMessage = ""`, `currentMetrics = undefined`). -/
def handleSubmitInit (st : CatalogState) (sid content : String)
    (userMsgId botMessageId : String) (now : Nat) : StreamState :=
  { catalog :=
      addMessageToSession
        (addMessageToSession st sid
          { role := .user, text := content, metric := none, id := none }
          userMsgId now)
        sid
        { role := .bot, text := "", metric := none, id := some botMessageId }
        botMessageId now
    botMessage := ""
    currentMetrics := none
    closed := false
    limitReachedMessage := none
    isPending := true }

/-- An event observable while a stream is open: an inbound frame, or the user
selecting another session in the sidebar (`setCurrentSessionId`). -/
inductive StreamEvent where
  | frame (f : Frame)
  | selectSession (sid : String)
deriving DecidableEq, Repr

/-- Process one event.  A sidebar click only changes `currentSessionId`;
the frame handler runs with the session id captured at submit time (the
source guards no `updateSessionMessage` call on the current active id). -/
def stepEvent (sid mid : String) (now : Nat) (st : StreamState)
    (e : StreamEvent) : StreamState :=
  match e with
  | .frame f => onMessage sid mid now st f
  | .selectSession s =>
      { st with catalog := { st.catalog with currentSessionId := some s } }

/-- Process a list of events in order. -/
def processEvents (sid mid : String) (now : Nat) (st : StreamState)
    (events : List StreamEvent) : StreamState :=
  events.foldl (stepEvent sid mid now) st

/-! ## Repository ingestion pipeline
`useGithubUrl.uploadUrl` (part_014:31-65) together with the Sidebar effect
that registers a catalog session when the hook's `sessionId` state becomes
non-null (Sidebar.tsx:293-298). -/

/-- Ingestion statistics (`getStats` payload): total file count plus a
per-language distribution of pre-formatted percentage strings. -/
structure Stats where
  total_code_files : Nat
  language_distribution : List (String × String)
deriving DecidableEq, Repr

/-- Outcomes of the backend calls made by `uploadUrl`, in call order:
`api.createSession` (identity attach), `api.uploadRepository` (returns a
`session_id` on success), `api.storeRepository`, `api.getStats`. -/
structure IngestBackend where
  createSessionOk : Bool
  uploadResult : Option String
  storeOk : Bool
  statsResult : Option Stats
deriving DecidableEq, Repr

/-- Result of one `uploadUrl` run: the value returned (statistics on full
success, nothing on early return or thrown error) and the value the hook's
`sessionId` state was set to, if `setSessionId` was reached.  `validUrl`
is `isValidGithubUrl(githubUrl)`; an invalid URL returns early with no
network call.  `setSessionId` runs right after `uploadRepository` succeeds,
before `storeRepository` and `getStats`. -/
structure UploadOutcome where
  result : Option Stats
  sessionIdSet : Option String
deriving DecidableEq, Repr

/-- `uploadUrl(githubUrl, email)` (part_014:31-65). -/
def uploadUrl (b : IngestBackend) (validUrl : Bool) : UploadOutcome :=
  if ¬ validUrl then { result := none, sessionIdSet := none }
  else if ¬ b.createSessionOk then { result := none, sessionIdSet := none }
  else
    match b.uploadResult with
    | none => { result := none, sessionIdSet := none }
    | some session_id =>
        if ¬ b.storeOk then { result := none, sessionIdSet := some session_id }
        else
          match b.statsResult with
          | none => { result := none, sessionIdSet := some session_id }
          | some stats =>
              { result := some stats, sessionIdSet := some session_id }

/-- The Sidebar effect on the hook's `sessionId` (Sidebar.tsx:293-298):
whenever `sessionId` becomes truthy, `createSession(newSessionName,
sessionId)` registers a session in the catalog — regardless of how the rest
of the `uploadUrl` pipeline ended. -/
def catalogAfterIngest (st : CatalogState) (b : IngestBackend)
    (validUrl : Bool) (name : String) (now : Nat) : CatalogState :=
  match (uploadUrl b validUrl).sessionIdSet with
  | some sid => createSession st name sid now
  | none => st

/-! ## Stats/progress reporter
`UploadProgress` (part_016) and its driving props in `Sidebar.tsx`
(`handleCreateSession`, `handleUploadComplete`, lines 335-372, 630-637). -/

/-- `UploadStep` (part_016:4). -/
inductive UploadStep where
  | uploading : UploadStep
  | chunking : UploadStep
  | indexing : UploadStep
  | storing : UploadStep
  | processing : UploadStep
  | complete : UploadStep
  | error : UploadStep
deriving DecidableEq, Repr

/-- Per-step simulated `duration` in milliseconds (part_016:27-70). -/
def stepDuration : UploadStep → Nat
  | .uploading => 2000
  | .chunking => 3000
  | .indexing => 2000
  | .storing => 2000
  | .processing => 5000
  | .complete => 0
  | .error => 0

/-- `stepSequence` (part_016:73-80). -/
def stepSequence : List UploadStep :=
  [.uploading, .chunking, .indexing, .storing, .processing, .complete]

/-- The component's local state: `currentStep` and `timeInStep`. -/
structure ReporterState where
  currentStep : UploadStep
  timeInStep : Nat
deriving DecidableEq, Repr

/-- The successor of a step in `stepSequence` (the advance of
part_016:104-111: move to `stepSequence[currentIndex + 1]` when not already
at the last index). -/
def nextStep : UploadStep → UploadStep
  | .uploading => .chunking
  | .chunking => .indexing
  | .indexing => .storing
  | .storing => .processing
  | .processing => .complete
  | s => s

/-- One 100 ms interval tick (part_016:94-96) followed by the advance effect
(part_016:101-116): bump `timeInStep`; if it reached the current step's
duration and the step is neither `complete` nor `error`, move to the next
step of the sequence and reset the timer. -/
def tickReporter (st : ReporterState) : ReporterState :=
  let t := st.timeInStep + 100
  if stepDuration st.currentStep ≤ t ∧ st.currentStep ≠ .complete ∧
      st.currentStep ≠ .error then
    { currentStep := nextStep st.currentStep, timeInStep := 0 }
  else
    { st with timeInStep := t }

/-- The Sidebar-level state feeding `UploadProgress`'s props
(`isActive = isUploading`, `error = uploadError`) together with the
component's own state. -/
structure UploadUIState where
  isUploading : Bool
  uploadError : Option String
  reporter : ReporterState
deriving DecidableEq, Repr

/-- JS truthiness of the `error` prop (`if (error)`). -/
def optTruthy : Option String → Bool
  | none => false
  | some s => s ≠ ""

/-- The generic message `handleCreateSession` stores on any upload failure
(Sidebar.tsx:361): the backend's own error text is not propagated. -/
def uploadErrorMsg : String := "An unexpected error occurred. Please try again."

/-- An event relevant to the reporter while an ingestion is outstanding:
a 100 ms timer tick, the real ingestion failing (the `catch` branch of
`handleCreateSession`), or the real ingestion succeeding (the success path
of `handleCreateSession`, which calls `handlestatsUpload`/`displaySuccess`
but leaves `isUploading` and `uploadError` untouched). -/
inductive ReporterEvent where
  | tick : ReporterEvent
  | realFailure : ReporterEvent
  | realSuccess : ReporterEvent
deriving DecidableEq, Repr

/-- Process one reporter event.  Ticks only run while the props effect
(part_016:82-99) keeps the interval alive: `isActive` true and `error`
falsy; when the `error` prop turns truthy the effect short-circuits
`currentStep` to `error`. -/
def stepReporter (st : UploadUIState) (e : ReporterEvent) : UploadUIState :=
  match e with
  | .tick =>
      if st.isUploading ∧ ¬ optTruthy st.uploadError then
        { st with reporter := tickReporter st.reporter }
      else st
  | .realFailure =>
      { st with
        uploadError := some uploadErrorMsg
        reporter := { st.reporter with currentStep := .error } }
  | .realSuccess => st

/-- Process a list of reporter events in order. -/
def runReporter (st : UploadUIState) (events : List ReporterEvent) :
    UploadUIState :=
  events.foldl stepReporter st

/-- The description text rendered for the current step (part_016:295-299):
on `error` it is `error || 'An unexpected error occurred. Please try
again.'`, otherwise the step's canned description (left opaque here as the
step itself). -/
def renderedErrorText (st : UploadUIState) : Option String :=
  if st.reporter.currentStep = .error then
    some (jsOr st.uploadError "An unexpected error occurred. Please try again.")
  else none

/-! ## Proof-layer helpers
Named forms of the inline lambdas of the catalog operations (so the lookup
lemmas can speak about them), read-back accessors, and the handler's
reachability invariant. -/

/-- The inner `messages.map` lambda of `updateSessionMessage`, factored out
for the proofs; `updateSessionMessage_eq_map` certifies it is definitionally
the source lambda. -/
def patchMessage (messageId : String) (u : UpdatedMessage) (message : Message) :
    Message :=
  if message.id = messageId then
    { id := messageId
      role := u.role
      text := u.text
      timestamp := message.timestamp
      metric := match u.metric with
        | some m => m
        | none => message.metric }
  else message

/-- The outer `sessions.map` lambda of `updateSessionMessage`, factored out
for the proofs. -/
def patchSession (sessionId messageId : String) (u : UpdatedMessage) (now : Nat)
    (session : Session) : Session :=
  if session.session_id = sessionId then
    { session with
      messages := session.messages.map (patchMessage messageId u)
      lastActive := now }
  else session

/-- The `sessions.map` lambda of `addMessageToSession`, factored out for the
proofs. -/
def appendSession (sessionId : String) (message : NewMessage) (genId : String)
    (now : Nat) (session : Session) : Session :=
  if session.session_id = sessionId then
    { session with
      messages := session.messages ++
        [{ id := jsOr message.id genId
           role := message.role
           text := message.text
           timestamp := now
           metric := message.metric }]
      lastActive := now }
  else session

/-- Frames whose branch neither closes the stream nor rewrites the text away
from the accumulator: partial-text and metrics frames. -/
def isDataFrame : Frame → Bool
  | .partialFrame _ => true
  | .metricFrame _ => true
  | _ => false

/-- The text fragment a frame contributes to the accumulated bot text. -/
def fragOf : Frame → String
  | .partialFrame s => s
  | _ => ""

/-- Concatenation of a list of fragments in delivery order. -/
def concatAll : List String → String
  | [] => ""
  | s :: t => s ++ concatAll t

/-- Read back the tracked bot message's text from the catalog. -/
def botTextAt (st : StreamState) (sid mid : String) : Option String :=
  ((findSession st.catalog sid).bind fun s => findMessage s mid).map Message.text

/-- Read back the tracked bot message's metric from the catalog. -/
def botMetricAt (st : StreamState) (sid mid : String) :
    Option (Option QueryMetrics) :=
  ((findSession st.catalog sid).bind fun s => findMessage s mid).map Message.metric

/-- Reachability invariant of the frame handler while the stream is live: the
captured session exists, the correlation-id message exists in it, and its
`text`/`metric` mirror the handler's local `botMessage`/`currentMetrics`. -/
def StreamInv (sid mid : String) (st : StreamState) : Prop :=
  ∃ s m, findSession st.catalog sid = some s ∧ findMessage s mid = some m ∧
    m.text = st.botMessage ∧ m.metric = st.currentMetrics

/-! ## Fixtures for witnesses and counterexamples -/

/-- A catalog holding one empty session `"A"`, which is active. -/
def catA : CatalogState :=
  { sessions := [{ session_id := "A", project_name := "proj", messages := [],
                   createdAt := 0, lastActive := 0 }]
    currentSessionId := some "A" }

/-- A catalog holding session `"A"` (active) with a single bot message
`"m1"`. -/
def catAMsg : CatalogState :=
  { sessions :=
      [{ session_id := "A"
         project_name := "proj"
         messages :=
           [{ id := "m1"
              role := .bot
              text := "old"
              timestamp := 3
              metric := none }]
         createdAt := 0
         lastActive := 0 }]
    currentSessionId := some "A" }

/-- A catalog holding empty sessions `"A"` (active) and `"B"`. -/
def catAB : CatalogState :=
  { sessions :=
      [{ session_id := "A", project_name := "a", messages := [],
         createdAt := 1, lastActive := 1 },
       { session_id := "B", project_name := "b", messages := [],
         createdAt := 2, lastActive := 2 }]
    currentSessionId := some "A" }

/-- Three empty sessions `"A"` (active), `"B"`, `"C"` appended in creation
order with creation times 1 < 2 < 3. -/
def catABC : CatalogState :=
  { sessions :=
      [{ session_id := "A", project_name := "a", messages := [],
         createdAt := 1, lastActive := 1 },
       { session_id := "B", project_name := "b", messages := [],
         createdAt := 2, lastActive := 2 },
       { session_id := "C", project_name := "c", messages := [],
         createdAt := 3, lastActive := 3 }]
    currentSessionId := some "A" }

/-- Backend outcome where `uploadRepository` returns session id `"s1"` but
`storeRepository` (the trigger-indexing/storage step) then fails. -/
def storeFailBackend : IngestBackend :=
  { createSessionOk := true, uploadResult := some "s1", storeOk := false,
    statsResult := none }

/-- Sidebar/reporter state mid-simulation: an upload is outstanding, no error
so far, and the simulated stage machine sits in `chunking`. -/
def chunkingUI : UploadUIState :=
  { isUploading := true, uploadError := none,
    reporter := { currentStep := .chunking, timeInStep := 300 } }

/-! ## Infrastructure lemmas -/

theorem find?_map_of_pred {α : Type} (f : α → α) (p : α → Bool) (l : List α)
    (h : ∀ x, p (f x) = p x) : (l.map f).find? p = (l.find? p).map f := by
  induction l with
  | nil => rfl
  | cons a t ih =>
      cases hpa : p a with
      | true =>
          rw [List.map_cons, List.find?_cons_of_pos _ (by rw [h a]; exact hpa),
            List.find?_cons_of_pos _ hpa]
          rfl
      | false =>
          rw [List.map_cons, List.find?_cons_of_neg _ (by simp [h a, hpa]),
            List.find?_cons_of_neg _ (by simp [hpa]), ih]

theorem map_eq_self_of {α : Type} (f : α → α) (l : List α)
    (h : ∀ x ∈ l, f x = x) : l.map f = l := by
  induction l with
  | nil => rfl
  | cons a t ih =>
      rw [List.map_cons, h a (List.mem_cons_self a t),
        ih fun x hx => h x (List.mem_cons_of_mem a hx)]

theorem find?_append_of_none {α : Type} (p : α → Bool) (l₁ l₂ : List α)
    (h : ∀ x ∈ l₁, p x = false) : (l₁ ++ l₂).find? p = l₂.find? p := by
  induction l₁ with
  | nil => rfl
  | cons a t ih =>
      rw [List.cons_append,
        List.find?_cons_of_neg _ (by simp [h a (List.mem_cons_self a t)]),
        ih fun x hx => h x (List.mem_cons_of_mem a hx)]

theorem patchSession_session_id (sid mid : String) (u : UpdatedMessage)
    (now : Nat) (s : Session) :
    (patchSession sid mid u now s).session_id = s.session_id := by
  unfold patchSession; split <;> rfl

theorem appendSession_session_id (sid : String) (message : NewMessage)
    (genId : String) (now : Nat) (s : Session) :
    (appendSession sid message genId now s).session_id = s.session_id := by
  unfold appendSession; split <;> rfl

theorem patchMessage_id (mid : String) (u : UpdatedMessage) (m : Message) :
    (patchMessage mid u m).id = m.id := by
  unfold patchMessage
  split
  · next h => exact h.symm
  · rfl

theorem updateSessionMessage_eq_map (st : CatalogState) (sid mid : String)
    (u : UpdatedMessage) (now : Nat) :
    updateSessionMessage st sid mid u now =
      { st with sessions := st.sessions.map (patchSession sid mid u now) } := rfl

theorem addMessageToSession_eq_map (st : CatalogState) (sid : String)
    (message : NewMessage) (genId : String) (now : Nat) :
    addMessageToSession st sid message genId now =
      { st with sessions := st.sessions.map (appendSession sid message genId now) } := rfl

theorem findSession_update (st : CatalogState) (sid mid sid' : String)
    (u : UpdatedMessage) (now : Nat) :
    findSession (updateSessionMessage st sid mid u now) sid' =
      (findSession st sid').map (patchSession sid mid u now) := by
  rw [updateSessionMessage_eq_map]
  exact find?_map_of_pred _ _ _ fun x => by simp [patchSession_session_id]

theorem findSession_append (st : CatalogState) (sid sid' : String)
    (message : NewMessage) (genId : String) (now : Nat) :
    findSession (addMessageToSession st sid message genId now) sid' =
      (findSession st sid').map (appendSession sid message genId now) := by
  rw [addMessageToSession_eq_map]
  exact find?_map_of_pred _ _ _ fun x => by simp [appendSession_session_id]

theorem findSession_some_session_id (st : CatalogState) (sid' : String)
    (s : Session) (h : findSession st sid' = some s) : s.session_id = sid' := by
  unfold findSession at h
  simpa using List.find?_some h

theorem findSession_some_mem (st : CatalogState) (sid' : String)
    (s : Session) (h : findSession st sid' = some s) : s ∈ st.sessions := by
  unfold findSession at h
  exact List.mem_of_find?_eq_some h

theorem patchSession_of_eq (sid mid : String) (u : UpdatedMessage) (now : Nat)
    (s : Session) (h : s.session_id = sid) :
    patchSession sid mid u now s =
      { s with messages := s.messages.map (patchMessage mid u),
               lastActive := now } := by
  unfold patchSession; rw [if_pos h]

theorem patchSession_of_ne (sid mid : String) (u : UpdatedMessage) (now : Nat)
    (s : Session) (h : ¬ s.session_id = sid) :
    patchSession sid mid u now s = s := by
  unfold patchSession; rw [if_neg h]

theorem appendSession_of_eq (sid : String) (message : NewMessage)
    (genId : String) (now : Nat) (s : Session) (h : s.session_id = sid) :
    appendSession sid message genId now s =
      { s with
        messages := s.messages ++
          [{ id := jsOr message.id genId
             role := message.role
             text := message.text
             timestamp := now
             metric := message.metric }]
        lastActive := now } := by
  unfold appendSession; rw [if_pos h]

theorem findMessage_after_update (st : CatalogState) (sid mid : String)
    (u : UpdatedMessage) (now : Nat) (s : Session) (m : Message)
    (hs : findSession st sid = some s) (hm : findMessage s mid = some m) :
    ∃ s', findSession (updateSessionMessage st sid mid u now) sid = some s' ∧
      findMessage s' mid = some
        { id := mid, role := u.role, text := u.text, timestamp := m.timestamp,
          metric := match u.metric with
            | some mm => mm
            | none => m.metric } ∧
      s'.lastActive = now := by
  have hsid := findSession_some_session_id st sid s hs
  refine ⟨patchSession sid mid u now s, ?_, ?_, ?_⟩
  · rw [findSession_update, hs]; rfl
  · rw [patchSession_of_eq _ _ _ _ _ hsid]
    have hmid : m.id = mid := by
      unfold findMessage at hm
      simpa using List.find?_some hm
    show (s.messages.map (patchMessage mid u)).find? (fun m' => m'.id = mid) = _
    rw [find?_map_of_pred _ _ _ fun x => by simp [patchMessage_id]]
    unfold findMessage at hm
    rw [hm]
    show some (patchMessage mid u m) = _
    unfold patchMessage
    rw [if_pos hmid]
  · rw [patchSession_of_eq _ _ _ _ _ hsid]

theorem onMessage_closed (sid mid : String) (now : Nat) (st : StreamState)
    (f : Frame) (h : st.closed = true) : onMessage sid mid now st f = st := by
  simp [onMessage, h]

theorem processFrames_closed (sid mid : String) (now : Nat) (st : StreamState)
    (frames : List Frame) (h : st.closed = true) :
    processFrames sid mid now st frames = st := by
  induction frames with
  | nil => rfl
  | cons f t ih =>
      show processFrames sid mid now (onMessage sid mid now st f) t = st
      rw [onMessage_closed sid mid now st f h]
      exact ih

theorem onMessage_data (sid mid : String) (now : Nat) (st : StreamState)
    (f : Frame) (hf : isDataFrame f = true) (hc : st.closed = false)
    (hinv : StreamInv sid mid st) :
    StreamInv sid mid (onMessage sid mid now st f) ∧
    (onMessage sid mid now st f).closed = false ∧
    (onMessage sid mid now st f).botMessage = st.botMessage ++ fragOf f := by
  obtain ⟨s, m, hs, hm, htext, hmetric⟩ := hinv
  cases f with
  | errorFrame e => simp [isDataFrame] at hf
  | limitFrame msg => simp [isDataFrame] at hf
  | completeFrame => simp [isDataFrame] at hf
  | partialFrame frag =>
      by_cases hfrag : frag = ""
      · have hst : onMessage sid mid now st (.partialFrame frag) = st := by
          simp [onMessage, hc, hfrag]
        rw [hst, hfrag]
        exact ⟨⟨s, m, hs, hm, htext, hmetric⟩, hc, (String.append_empty _).symm⟩
      · have hstep : onMessage sid mid now st (.partialFrame frag) =
            { st with
              botMessage := st.botMessage ++ frag
              catalog := updateSessionMessage st.catalog sid mid
                { role := .bot, text := st.botMessage ++ frag,
                  metric := some st.currentMetrics } now } := by
          simp [onMessage, hc, hfrag]
        obtain ⟨s', hs', hm', _⟩ := findMessage_after_update st.catalog sid mid
          { role := .bot, text := st.botMessage ++ frag,
            metric := some st.currentMetrics } now s m hs hm
        rw [hstep]
        exact ⟨⟨s', _, hs', hm', rfl, rfl⟩, hc, rfl⟩
  | metricFrame metric =>
      have hstep : onMessage sid mid now st (.metricFrame metric) =
          { st with
            currentMetrics := some metric
            catalog := updateSessionMessage st.catalog sid mid
              { role := .bot, text := st.botMessage,
                metric := some (some metric) } now } := by
        simp [onMessage, hc]
      obtain ⟨s', hs', hm', _⟩ := findMessage_after_update st.catalog sid mid
        { role := .bot, text := st.botMessage,
          metric := some (some metric) } now s m hs hm
      rw [hstep]
      exact ⟨⟨s', _, hs', hm', rfl, rfl⟩, hc, (String.append_empty _).symm⟩

theorem processFrames_data (sid mid : String) (now : Nat) (frames : List Frame)
    (st : StreamState) (hfs : ∀ f ∈ frames, isDataFrame f = true)
    (hc : st.closed = false) (hinv : StreamInv sid mid st) :
    StreamInv sid mid (processFrames sid mid now st frames) ∧
    (processFrames sid mid now st frames).closed = false ∧
    (processFrames sid mid now st frames).botMessage =
      st.botMessage ++ concatAll (frames.map fragOf) := by
  induction frames generalizing st with
  | nil => exact ⟨hinv, hc, (String.append_empty _).symm⟩
  | cons f t ih =>
      obtain ⟨h1, h2, h3⟩ :=
        onMessage_data sid mid now st f (hfs f (List.mem_cons_self f t)) hc hinv
      obtain ⟨g1, g2, g3⟩ :=
        ih (onMessage sid mid now st f)
          (fun x hx => hfs x (List.mem_cons_of_mem f hx)) h2 h1
      refine ⟨g1, g2, ?_⟩
      show (processFrames sid mid now (onMessage sid mid now st f) t).botMessage = _
      rw [g3, h3, List.map_cons]
      show _ = st.botMessage ++ (fragOf f ++ concatAll (t.map fragOf))
      rw [String.append_assoc]

theorem handleSubmitInit_inv (st0 : CatalogState)
    (sid content userMsgId mid : String) (now : Nat)
    (hs : (findSession st0 sid).isSome)
    (hfresh : ∀ s ∈ st0.sessions, ∀ m ∈ s.messages, m.id ≠ mid)
    (huid : userMsgId ≠ mid) :
    StreamInv sid mid (handleSubmitInit st0 sid content userMsgId mid now) ∧
    (handleSubmitInit st0 sid content userMsgId mid now).closed = false ∧
    (handleSubmitInit st0 sid content userMsgId mid now).botMessage = "" := by
  obtain ⟨s, hs0⟩ := Option.isSome_iff_exists.mp hs
  have hsid := findSession_some_session_id st0 sid s hs0
  have hmem := findSession_some_mem st0 sid s hs0
  have hcat : (handleSubmitInit st0 sid content userMsgId mid now).catalog =
      addMessageToSession
        (addMessageToSession st0 sid
          { role := .user, text := content, metric := none, id := none }
          userMsgId now)
        sid
        { role := .bot, text := "", metric := none, id := some mid }
        mid now := rfl
  set u1 : NewMessage :=
    { role := .user, text := content, metric := none, id := none } with hu1
  set u2 : NewMessage :=
    { role := .bot, text := "", metric := none, id := some mid } with hu2
  have hfind : findSession (handleSubmitInit st0 sid content userMsgId mid
      now).catalog sid =
      some (appendSession sid u2 mid now (appendSession sid u1 userMsgId now s)) := by
    rw [hcat, findSession_append, findSession_append, hs0]
    rfl
  have ha1 := appendSession_of_eq sid u1 userMsgId now s hsid
  have hsid1 : (appendSession sid u1 userMsgId now s).session_id = sid := by
    rw [appendSession_session_id]; exact hsid
  have ha2 := appendSession_of_eq sid u2 mid now
    (appendSession sid u1 userMsgId now s) hsid1
  refine ⟨⟨appendSession sid u2 mid now (appendSession sid u1 userMsgId now s),
    ?m, hfind, ?_, ?_, ?_⟩, rfl, rfl⟩
  case m =>
    exact { id := jsOr u2.id mid, role := u2.role, text := u2.text,
            timestamp := now, metric := u2.metric }
  · rw [ha2, ha1]
    show ((s.messages ++ _) ++ _).find? _ = _
    rw [List.append_assoc]
    rw [find?_append_of_none _ s.messages _
      (fun x hx => by simp [hfresh s hmem x hx])]
    rw [List.singleton_append,
      List.find?_cons_of_neg _ (by simp [jsOr, huid]),
      List.find?_cons_of_pos _ (by simp [jsOr])]
  · rfl
  · rfl

theorem map_congr_of {α β : Type} (f g : α → β) (l : List α)
    (h : ∀ x ∈ l, f x = g x) : l.map f = l.map g := by
  induction l with
  | nil => rfl
  | cons a t ih =>
      rw [List.map_cons, List.map_cons, h a (List.mem_cons_self a t),
        ih fun x hx => h x (List.mem_cons_of_mem a hx)]

theorem processFrames_append (sid mid : String) (now : Nat) (st : StreamState)
    (l₁ l₂ : List Frame) :
    processFrames sid mid now st (l₁ ++ l₂) =
      processFrames sid mid now (processFrames sid mid now st l₁) l₂ :=
  List.foldl_append _ _ _ _

theorem findSession_update_ne (st : CatalogState) (sid mid sid' : String)
    (u : UpdatedMessage) (now : Nat) (hne : sid' ≠ sid) :
    findSession (updateSessionMessage st sid mid u now) sid' =
      findSession st sid' := by
  rw [findSession_update]
  cases hfs : findSession st sid' with
  | none => rfl
  | some s =>
      have hsid := findSession_some_session_id st sid' s hfs
      show some (patchSession sid mid u now s) = some s
      rw [patchSession_of_ne _ _ _ _ _ (by rw [hsid]; exact hne)]

theorem botTextAt_of_inv (sid mid : String) (st : StreamState)
    (h : StreamInv sid mid st) : botTextAt st sid mid = some st.botMessage := by
  obtain ⟨s, m, hs, hm, ht, _⟩ := h
  rw [botTextAt, hs]
  show (findMessage s mid).map Message.text = _
  rw [hm]
  show some m.text = _
  rw [ht]

theorem botMetricAt_of_inv (sid mid : String) (st : StreamState)
    (h : StreamInv sid mid st) :
    botMetricAt st sid mid = some st.currentMetrics := by
  obtain ⟨s, m, hs, hm, _, hmet⟩ := h
  rw [botMetricAt, hs]
  show (findMessage s mid).map Message.metric = _
  rw [hm]
  show some m.metric = _
  rw [hmet]

theorem onMessage_metric_currentMetrics (sid mid : String) (now : Nat)
    (st : StreamState) (metric : QueryMetrics) (hc : st.closed = false) :
    (onMessage sid mid now st (.metricFrame metric)).currentMetrics =
      some metric := by
  simp [onMessage, hc]

theorem onMessage_partial_currentMetrics (sid mid : String) (now : Nat)
    (st : StreamState) (frag : String) (hc : st.closed = false) :
    (onMessage sid mid now st (.partialFrame frag)).currentMetrics =
      st.currentMetrics := by
  by_cases hfrag : frag = "" <;> simp [onMessage, hc, hfrag]



/-! ## Claim theorems -/

/-- C1: for every sequence of partial-text frames delivered over one query
stream for one correlation id (the placeholder bot message id), the bot
message's text after the last frame equals the concatenation of the
fragments in delivery order.  Hypotheses describe a well-formed submission:
the submitting session exists, and the generated correlation id is unused in
the catalog and distinct from the user message's generated id (ids generated
by `Date.now().toString()` plus a random suffix satisfy this). -/
theorem C1_partial_frames_concatenate (st0 : CatalogState)
    (sid content userMsgId mid : String) (now now' : Nat) (fs : List String)
    (hs : (findSession st0 sid).isSome)
    (hfresh : ∀ s ∈ st0.sessions, ∀ m ∈ s.messages, m.id ≠ mid)
    (huid : userMsgId ≠ mid) :
    botTextAt (processFrames sid mid now'
        (handleSubmitInit st0 sid content userMsgId mid now)
        (fs.map Frame.partialFrame)) sid mid = some (concatAll fs) := by
  obtain ⟨hinv, hc, hbm⟩ :=
    handleSubmitInit_inv st0 sid content userMsgId mid now hs hfresh huid
  obtain ⟨g1, g2, g3⟩ := processFrames_data sid mid now'
    (fs.map Frame.partialFrame) _
    (by
      intro f hf
      obtain ⟨x, _, rfl⟩ := List.mem_map.mp hf
      rfl)
    hc hinv
  rw [botTextAt_of_inv sid mid _ g1, g3, hbm, String.empty_append,
    List.map_map]
  have : (fragOf ∘ Frame.partialFrame) = fun s => s := rfl
  rw [this, List.map_id']

/-- Witness for C1 at a concrete catalog and frame list. -/
theorem C1_witness :
    botTextAt (processFrames "A" "m1" 2
        (handleSubmitInit catA "A" "what does parse do?" "u1" "m1" 1)
        (["Hel", "lo ", "world"].map Frame.partialFrame)) "A" "m1" =
      some (concatAll ["Hel", "lo ", "world"]) :=
  C1_partial_frames_concatenate catA "A" "what does parse do?" "u1" "m1" 1 2
    ["Hel", "lo ", "world"] (by decide) (by decide) (by decide)

/-- C2: when a quota/limit frame arrives on the stream (after any run of
data frames), the handler overwrites the bot message text with the limit
notice, surfaces the banner notice, and closes the channel; no frame
delivered after the transition is processed (the platform delivers no
`onmessage` once `close()` was called), so in particular a later completion
frame has no effect and the final text equals the limit message, not the
concatenated partial text. -/
theorem C2_limit_frame_terminates (st0 : CatalogState)
    (sid content userMsgId mid : String) (now now' : Nat)
    (fs gs : List Frame) (msg : Option String)
    (hs : (findSession st0 sid).isSome)
    (hfresh : ∀ s ∈ st0.sessions, ∀ m ∈ s.messages, m.id ≠ mid)
    (huid : userMsgId ≠ mid)
    (hfs : ∀ f ∈ fs, isDataFrame f = true) :
    processFrames sid mid now' (handleSubmitInit st0 sid content userMsgId mid now)
        (fs ++ Frame.limitFrame msg :: gs) =
      processFrames sid mid now' (handleSubmitInit st0 sid content userMsgId mid now)
        (fs ++ [Frame.limitFrame msg]) ∧
    (processFrames sid mid now' (handleSubmitInit st0 sid content userMsgId mid now)
        (fs ++ Frame.limitFrame msg :: gs)).closed = true ∧
    (processFrames sid mid now' (handleSubmitInit st0 sid content userMsgId mid now)
        (fs ++ Frame.limitFrame msg :: gs)).limitReachedMessage =
      some (jsOr msg dailyLimitMsg) ∧
    botTextAt (processFrames sid mid now'
        (handleSubmitInit st0 sid content userMsgId mid now)
        (fs ++ Frame.limitFrame msg :: gs)) sid mid =
      some (jsOr msg dailyLimitMsg) := by
  obtain ⟨hinv, hc, _⟩ :=
    handleSubmitInit_inv st0 sid content userMsgId mid now hs hfresh huid
  obtain ⟨g1, g2, _⟩ := processFrames_data sid mid now' fs _ hfs hc hinv
  obtain ⟨s, m, hfs1, hfm1, _, _⟩ := g1
  have hlim : onMessage sid mid now'
      (processFrames sid mid now'
        (handleSubmitInit st0 sid content userMsgId mid now) fs)
      (Frame.limitFrame msg) =
      { processFrames sid mid now'
          (handleSubmitInit st0 sid content userMsgId mid now) fs with
        limitReachedMessage := some (jsOr msg dailyLimitMsg)
        isPending := false
        catalog := updateSessionMessage
          (processFrames sid mid now'
            (handleSubmitInit st0 sid content userMsgId mid now) fs).catalog
          sid mid
          { role := .bot, text := jsOr msg dailyLimitMsg, metric := none } now'
        closed := true } := by
    simp [onMessage, g2]
  have hsplit : processFrames sid mid now'
      (handleSubmitInit st0 sid content userMsgId mid now)
      (fs ++ Frame.limitFrame msg :: gs) =
      processFrames sid mid now'
        (processFrames sid mid now'
          (handleSubmitInit st0 sid content userMsgId mid now)
          (fs ++ [Frame.limitFrame msg])) gs := by
    rw [← processFrames_append]
    rw [List.append_assoc]
    rfl
  have hone : processFrames sid mid now'
      (handleSubmitInit st0 sid content userMsgId mid now)
      (fs ++ [Frame.limitFrame msg]) =
      onMessage sid mid now'
        (processFrames sid mid now'
          (handleSubmitInit st0 sid content userMsgId mid now) fs)
        (Frame.limitFrame msg) := by
    rw [processFrames_append]
    rfl
  have hclosedfin : (processFrames sid mid now'
      (handleSubmitInit st0 sid content userMsgId mid now)
      (fs ++ [Frame.limitFrame msg])).closed = true := by
    rw [hone, hlim]
  have hstable : processFrames sid mid now'
      (handleSubmitInit st0 sid content userMsgId mid now)
      (fs ++ Frame.limitFrame msg :: gs) =
      processFrames sid mid now'
        (handleSubmitInit st0 sid content userMsgId mid now)
        (fs ++ [Frame.limitFrame msg]) := by
    rw [hsplit]
    exact processFrames_closed sid mid now' _ gs hclosedfin
  refine ⟨hstable, by rw [hstable]; exact hclosedfin, ?_, ?_⟩
  · rw [hstable, hone, hlim]
  · rw [hstable, hone, hlim]
    obtain ⟨s', hs', hm', _⟩ := findMessage_after_update _ sid mid
      { role := .bot, text := jsOr msg dailyLimitMsg, metric := none } now'
      s m hfs1 hfm1
    show botTextAt { processFrames sid mid now'
        (handleSubmitInit st0 sid content userMsgId mid now) fs with
      limitReachedMessage := some (jsOr msg dailyLimitMsg)
      isPending := false
      catalog := updateSessionMessage _ sid mid
        { role := .bot, text := jsOr msg dailyLimitMsg, metric := none } now'
      closed := true } sid mid = _
    rw [botTextAt, hs']
    show (findMessage s' mid).map Message.text = _
    rw [hm']
    rfl

/-- Witness for C2: three partial frames, then a limit frame, then a stray
completion frame and a stray partial frame. -/
theorem C2_witness :
    processFrames "A" "m1" 2 (handleSubmitInit catA "A" "q" "u1" "m1" 1)
        ([Frame.partialFrame "a", Frame.partialFrame "b", Frame.partialFrame "c"]
          ++ Frame.limitFrame (some "Daily limit reached.")
            :: [Frame.completeFrame, Frame.partialFrame "zzz"]) =
      processFrames "A" "m1" 2 (handleSubmitInit catA "A" "q" "u1" "m1" 1)
        ([Frame.partialFrame "a", Frame.partialFrame "b", Frame.partialFrame "c"]
          ++ [Frame.limitFrame (some "Daily limit reached.")]) ∧
    (processFrames "A" "m1" 2 (handleSubmitInit catA "A" "q" "u1" "m1" 1)
        ([Frame.partialFrame "a", Frame.partialFrame "b", Frame.partialFrame "c"]
          ++ Frame.limitFrame (some "Daily limit reached.")
            :: [Frame.completeFrame, Frame.partialFrame "zzz"])).closed = true ∧
    (processFrames "A" "m1" 2 (handleSubmitInit catA "A" "q" "u1" "m1" 1)
        ([Frame.partialFrame "a", Frame.partialFrame "b", Frame.partialFrame "c"]
          ++ Frame.limitFrame (some "Daily limit reached.")
            :: [Frame.completeFrame, Frame.partialFrame "zzz"])).limitReachedMessage =
      some (jsOr (some "Daily limit reached.") dailyLimitMsg) ∧
    botTextAt (processFrames "A" "m1" 2 (handleSubmitInit catA "A" "q" "u1" "m1" 1)
        ([Frame.partialFrame "a", Frame.partialFrame "b", Frame.partialFrame "c"]
          ++ Frame.limitFrame (some "Daily limit reached.")
            :: [Frame.completeFrame, Frame.partialFrame "zzz"])) "A" "m1" =
      some (jsOr (some "Daily limit reached.") dailyLimitMsg) :=
  C2_limit_frame_terminates catA "A" "q" "u1" "m1" 1 2
    [Frame.partialFrame "a", Frame.partialFrame "b", Frame.partialFrame "c"]
    [Frame.completeFrame, Frame.partialFrame "zzz"]
    (some "Daily limit reached.")
    (by decide) (by decide) (by decide) (by decide)

/-- C7 (amended): a transport error (`ws.onerror`) terminating the stream
leaves the bot message's text equal to the accumulated partial text with the
connection-failure notice appended — partial text is preserved; an in-band
error frame (`data.error`) carrying a non-empty (truthy) message, by
contrast, overwrites the text with `Error: <message>`, discarding the
accumulated partial text (an empty error string is falsy and the frame is
dropped). -/
theorem C7_error_text_behavior (st0 : CatalogState)
    (sid content userMsgId mid : String) (now now' : Nat)
    (fs : List String) (emsg : String)
    (hs : (findSession st0 sid).isSome)
    (hfresh : ∀ s ∈ st0.sessions, ∀ m ∈ s.messages, m.id ≠ mid)
    (huid : userMsgId ≠ mid) (hemsg : emsg ≠ "") :
    botTextAt (onError sid mid now'
        (processFrames sid mid now'
          (handleSubmitInit st0 sid content userMsgId mid now)
          (fs.map Frame.partialFrame))) sid mid =
      some (concatAll fs ++ connectionErrorMsg) ∧
    botTextAt (processFrames sid mid now'
        (handleSubmitInit st0 sid content userMsgId mid now)
        (fs.map Frame.partialFrame ++ [Frame.errorFrame emsg])) sid mid =
      some ("Error: " ++ emsg) := by
  obtain ⟨hinv, hc, hbm⟩ :=
    handleSubmitInit_inv st0 sid content userMsgId mid now hs hfresh huid
  obtain ⟨g1, g2, g3⟩ := processFrames_data sid mid now'
    (fs.map Frame.partialFrame) _
    (by
      intro f hf
      obtain ⟨x, _, rfl⟩ := List.mem_map.mp hf
      rfl)
    hc hinv
  obtain ⟨s, m, hfs1, hfm1, _, _⟩ := g1
  have hbm' : (processFrames sid mid now'
      (handleSubmitInit st0 sid content userMsgId mid now)
      (fs.map Frame.partialFrame)).botMessage = concatAll fs := by
    rw [g3, hbm, String.empty_append, List.map_map]
    have : (fragOf ∘ Frame.partialFrame) = fun x => x := rfl
    rw [this, List.map_id']
  constructor
  · obtain ⟨s', hs', hm', _⟩ := findMessage_after_update _ sid mid
      { role := .bot,
        text := (processFrames sid mid now'
          (handleSubmitInit st0 sid content userMsgId mid now)
          (fs.map Frame.partialFrame)).botMessage ++ connectionErrorMsg,
        metric := some (processFrames sid mid now'
          (handleSubmitInit st0 sid content userMsgId mid now)
          (fs.map Frame.partialFrame)).currentMetrics } now'
      s m hfs1 hfm1
    show ((findSession (updateSessionMessage _ sid mid _ now') sid).bind
      fun t => findMessage t mid).map Message.text = _
    rw [hs']
    show (findMessage s' mid).map Message.text = _
    rw [hm']
    show some (_ ++ connectionErrorMsg) = _
    rw [hbm']
  · have herr : onMessage sid mid now'
        (processFrames sid mid now'
          (handleSubmitInit st0 sid content userMsgId mid now)
          (fs.map Frame.partialFrame))
        (Frame.errorFrame emsg) =
        { processFrames sid mid now'
            (handleSubmitInit st0 sid content userMsgId mid now)
            (fs.map Frame.partialFrame) with
          catalog := updateSessionMessage
            (processFrames sid mid now'
              (handleSubmitInit st0 sid content userMsgId mid now)
              (fs.map Frame.partialFrame)).catalog sid mid
            { role := .bot, text := "Error: " ++ emsg, metric := none } now'
          closed := true } := by
      simp [onMessage, g2, hemsg]
    rw [processFrames_append]
    show botTextAt (onMessage sid mid now' _ (Frame.errorFrame emsg)) sid mid = _
    rw [herr]
    obtain ⟨s', hs', hm', _⟩ := findMessage_after_update _ sid mid
      { role := .bot, text := "Error: " ++ emsg, metric := none } now'
      s m hfs1 hfm1
    show ((findSession (updateSessionMessage _ sid mid _ now') sid).bind
      fun t => findMessage t mid).map Message.text = _
    rw [hs']
    show (findMessage s' mid).map Message.text = _
    rw [hm']
    rfl

/-- C7 counterexample: with accumulated partial text `"Hello"`, an in-band
error frame terminates the stream with text `"Error: boom"`, which neither
equals `"Hello"` followed by the failure notice nor even extends `"Hello"` —
the partial text already shown is discarded, falsifying the claim for this
kind of stream-terminating error. -/
theorem C7_counterexample :
    botTextAt (processFrames "A" "m1" 2
        (handleSubmitInit catA "A" "q" "u1" "m1" 1)
        [Frame.partialFrame "Hello", Frame.errorFrame "boom"]) "A" "m1" =
      some ("Error: " ++ "boom") ∧
    ("Error: " ++ "boom") ≠ "Hello" ++ connectionErrorMsg ∧
    ¬ ("Hello".data <+: ("Error: " ++ "boom").data) := by
  refine ⟨by decide, by decide, by decide⟩

/-- Witness for C7 at a concrete input. -/
theorem C7_witness :
    botTextAt (onError "A" "m1" 2
        (processFrames "A" "m1" 2
          (handleSubmitInit catA "A" "q" "u1" "m1" 1)
          (["Hel", "lo"].map Frame.partialFrame))) "A" "m1" =
      some (concatAll ["Hel", "lo"] ++ connectionErrorMsg) ∧
    botTextAt (processFrames "A" "m1" 2
        (handleSubmitInit catA "A" "q" "u1" "m1" 1)
        (["Hel", "lo"].map Frame.partialFrame ++ [Frame.errorFrame "boom"])) "A" "m1" =
      some ("Error: " ++ "boom") :=
  C7_error_text_behavior catA "A" "q" "u1" "m1" 1 2 ["Hel", "lo"] "boom"
    (by decide) (by decide) (by decide) (by decide)

/-- C8: for every interleaving `fs` of partial-text and metrics frames on one
stream, appending a metrics frame replaces the bot message's `metric` field
while leaving its accumulated text unchanged, and appending a partial-text
frame extends the text while leaving the current `metric` value unchanged. -/
theorem C8_metric_text_independence (st0 : CatalogState)
    (sid content userMsgId mid : String) (now now' : Nat)
    (fs : List Frame) (metric : QueryMetrics) (frag : String)
    (hs : (findSession st0 sid).isSome)
    (hfresh : ∀ s ∈ st0.sessions, ∀ m ∈ s.messages, m.id ≠ mid)
    (huid : userMsgId ≠ mid)
    (hfs : ∀ f ∈ fs, isDataFrame f = true) :
    botTextAt (processFrames sid mid now'
        (handleSubmitInit st0 sid content userMsgId mid now)
        (fs ++ [Frame.metricFrame metric])) sid mid =
      botTextAt (processFrames sid mid now'
        (handleSubmitInit st0 sid content userMsgId mid now) fs) sid mid ∧
    botMetricAt (processFrames sid mid now'
        (handleSubmitInit st0 sid content userMsgId mid now)
        (fs ++ [Frame.metricFrame metric])) sid mid = some (some metric) ∧
    botTextAt (processFrames sid mid now'
        (handleSubmitInit st0 sid content userMsgId mid now)
        (fs ++ [Frame.partialFrame frag])) sid mid =
      (botTextAt (processFrames sid mid now'
        (handleSubmitInit st0 sid content userMsgId mid now) fs) sid mid).map
        (fun t => t ++ frag) ∧
    botMetricAt (processFrames sid mid now'
        (handleSubmitInit st0 sid content userMsgId mid now)
        (fs ++ [Frame.partialFrame frag])) sid mid =
      botMetricAt (processFrames sid mid now'
        (handleSubmitInit st0 sid content userMsgId mid now) fs) sid mid := by
  obtain ⟨hinv, hc, _⟩ :=
    handleSubmitInit_inv st0 sid content userMsgId mid now hs hfresh huid
  obtain ⟨g1, g2, _⟩ := processFrames_data sid mid now' fs _ hfs hc hinv
  obtain ⟨m1, m2, m3⟩ := onMessage_data sid mid now' _
    (Frame.metricFrame metric) rfl g2 g1
  obtain ⟨p1, p2, p3⟩ := onMessage_data sid mid now' _
    (Frame.partialFrame frag) rfl g2 g1
  have hmet := onMessage_metric_currentMetrics sid mid now'
    (processFrames sid mid now'
      (handleSubmitInit st0 sid content userMsgId mid now) fs) metric g2
  have hpar := onMessage_partial_currentMetrics sid mid now'
    (processFrames sid mid now'
      (handleSubmitInit st0 sid content userMsgId mid now) fs) frag g2
  rw [processFrames_append, processFrames_append]
  have hm1 : processFrames sid mid now'
      (processFrames sid mid now'
        (handleSubmitInit st0 sid content userMsgId mid now) fs)
      [Frame.metricFrame metric] =
      onMessage sid mid now'
        (processFrames sid mid now'
          (handleSubmitInit st0 sid content userMsgId mid now) fs)
        (Frame.metricFrame metric) := rfl
  have hp1 : processFrames sid mid now'
      (processFrames sid mid now'
        (handleSubmitInit st0 sid content userMsgId mid now) fs)
      [Frame.partialFrame frag] =
      onMessage sid mid now'
        (processFrames sid mid now'
          (handleSubmitInit st0 sid content userMsgId mid now) fs)
        (Frame.partialFrame frag) := rfl
  rw [hm1, hp1]
  refine ⟨?_, ?_, ?_, ?_⟩
  · rw [botTextAt_of_inv sid mid _ m1, botTextAt_of_inv sid mid _ g1, m3]
    show some (_ ++ fragOf (Frame.metricFrame metric)) = _
    rw [show fragOf (Frame.metricFrame metric) = "" from rfl,
      String.append_empty]
  · rw [botMetricAt_of_inv sid mid _ m1, hmet]
  · rw [botTextAt_of_inv sid mid _ p1, botTextAt_of_inv sid mid _ g1, p3]
    rfl
  · rw [botMetricAt_of_inv sid mid _ p1, botMetricAt_of_inv sid mid _ g1, hpar]

/-- Witness for C8: a metric frame and a partial frame appended after an
interleaved run of two partial frames and a metric frame. -/
theorem C8_witness :
    botTextAt (processFrames "A" "m1" 2
        (handleSubmitInit catA "A" "q" "u1" "m1" 1)
        ([Frame.partialFrame "x", Frame.metricFrame { tag := 4 },
          Frame.partialFrame "y"] ++ [Frame.metricFrame { tag := 7 }])) "A" "m1" =
      botTextAt (processFrames "A" "m1" 2
        (handleSubmitInit catA "A" "q" "u1" "m1" 1)
        [Frame.partialFrame "x", Frame.metricFrame { tag := 4 },
          Frame.partialFrame "y"]) "A" "m1" ∧
    botMetricAt (processFrames "A" "m1" 2
        (handleSubmitInit catA "A" "q" "u1" "m1" 1)
        ([Frame.partialFrame "x", Frame.metricFrame { tag := 4 },
          Frame.partialFrame "y"] ++ [Frame.metricFrame { tag := 7 }])) "A" "m1" =
      some (some { tag := 7 }) ∧
    botTextAt (processFrames "A" "m1" 2
        (handleSubmitInit catA "A" "q" "u1" "m1" 1)
        ([Frame.partialFrame "x", Frame.metricFrame { tag := 4 },
          Frame.partialFrame "y"] ++ [Frame.partialFrame "z"])) "A" "m1" =
      (botTextAt (processFrames "A" "m1" 2
        (handleSubmitInit catA "A" "q" "u1" "m1" 1)
        [Frame.partialFrame "x", Frame.metricFrame { tag := 4 },
          Frame.partialFrame "y"]) "A" "m1").map (fun t => t ++ "z") ∧
    botMetricAt (processFrames "A" "m1" 2
        (handleSubmitInit catA "A" "q" "u1" "m1" 1)
        ([Frame.partialFrame "x", Frame.metricFrame { tag := 4 },
          Frame.partialFrame "y"] ++ [Frame.partialFrame "z"])) "A" "m1" =
      botMetricAt (processFrames "A" "m1" 2
        (handleSubmitInit catA "A" "q" "u1" "m1" 1)
        [Frame.partialFrame "x", Frame.metricFrame { tag := 4 },
          Frame.partialFrame "y"]) "A" "m1" :=
  C8_metric_text_independence catA "A" "q" "u1" "m1" 1 2
    [Frame.partialFrame "x", Frame.metricFrame { tag := 4 },
      Frame.partialFrame "y"]
    { tag := 7 } "z" (by decide) (by decide) (by decide) (by decide)

/-- C4 counterexample: the active session switches from `"A"` to `"B"` while
the stream is open, yet the next partial frame still performs an update-by-id
mutation for the abandoned correlation id `"m1"` in session `"A"` (its text
becomes `"x"` instead of staying `""`): the handler's `updateSessionMessage`
calls are not guarded by any check that the correlation id still belongs to
the still-active session. -/
theorem C4_counterexample :
    (processEvents "A" "m1" 2 (handleSubmitInit catAB "A" "q" "u1" "m1" 1)
      [StreamEvent.selectSession "B",
       StreamEvent.frame (Frame.partialFrame "x")]).catalog.currentSessionId =
      some "B" ∧
    botTextAt (processEvents "A" "m1" 2
      (handleSubmitInit catAB "A" "q" "u1" "m1" 1)
      [StreamEvent.selectSession "B",
       StreamEvent.frame (Frame.partialFrame "x")]) "A" "m1" = some "x" ∧
    ("x" : String) ≠ "" := by
  refine ⟨by decide, by decide, by decide⟩

/-- C4 (amended): the handler has no guard — after the active session
changes, stream frames keep mutating the session captured at submit time —
but the stale stream can touch only that captured session: every session
with a different id is left exactly as it was by any interleaving of frames
and session switches. -/
theorem C4_stale_stream_scope (sid mid : String) (now : Nat)
    (st : StreamState) (events : List StreamEvent) (sid' : String)
    (hne : sid' ≠ sid) :
    findSession (processEvents sid mid now st events).catalog sid' =
      findSession st.catalog sid' := by
  induction events generalizing st with
  | nil => rfl
  | cons e t ih =>
      have hstep : processEvents sid mid now st (e :: t) =
          processEvents sid mid now (stepEvent sid mid now st e) t := rfl
      rw [hstep, ih (stepEvent sid mid now st e)]
      cases e with
      | selectSession snew => rfl
      | frame f =>
          show findSession (onMessage sid mid now st f).catalog sid' = _
          cases hcl : st.closed with
          | true => rw [onMessage_closed sid mid now st f hcl]
          | false =>
              cases f with
              | errorFrame e' =>
                  by_cases herr : e' = ""
                  · have : onMessage sid mid now st (.errorFrame e') = st := by
                      simp [onMessage, hcl, herr]
                    rw [this]
                  · have : onMessage sid mid now st (.errorFrame e') =
                        { st with
                          catalog := updateSessionMessage st.catalog sid mid
                            { role := .bot, text := "Error: " ++ e',
                              metric := none } now
                          closed := true } := by simp [onMessage, hcl, herr]
                    rw [this]
                    exact findSession_update_ne _ _ _ _ _ _ hne
              | limitFrame msg =>
                  have : onMessage sid mid now st (.limitFrame msg) =
                      { st with
                        limitReachedMessage := some (jsOr msg dailyLimitMsg)
                        isPending := false
                        catalog := updateSessionMessage st.catalog sid mid
                          { role := .bot, text := jsOr msg dailyLimitMsg,
                            metric := none } now
                        closed := true } := by simp [onMessage, hcl]
                  rw [this]
                  exact findSession_update_ne _ _ _ _ _ _ hne
              | partialFrame frag =>
                  by_cases hfrag : frag = ""
                  · have : onMessage sid mid now st (.partialFrame frag) = st := by
                      simp [onMessage, hcl, hfrag]
                    rw [this]
                  · have : onMessage sid mid now st (.partialFrame frag) =
                        { st with
                          botMessage := st.botMessage ++ frag
                          catalog := updateSessionMessage st.catalog sid mid
                            { role := .bot, text := st.botMessage ++ frag,
                              metric := some st.currentMetrics } now } := by
                      simp [onMessage, hcl, hfrag]
                    rw [this]
                    exact findSession_update_ne _ _ _ _ _ _ hne
              | metricFrame metric =>
                  have : onMessage sid mid now st (.metricFrame metric) =
                      { st with
                        currentMetrics := some metric
                        catalog := updateSessionMessage st.catalog sid mid
                          { role := .bot, text := st.botMessage,
                            metric := some (some metric) } now } := by
                    simp [onMessage, hcl]
                  rw [this]
                  exact findSession_update_ne _ _ _ _ _ _ hne
              | completeFrame =>
                  have : onMessage sid mid now st .completeFrame =
                      { st with closed := true } := by simp [onMessage, hcl]
                  rw [this]

/-- Witness for C4 (amended) at a concrete input: session `"B"` is untouched
by the stale stream's events. -/
theorem C4_witness :
    findSession (processEvents "A" "m1" 2
      (handleSubmitInit catAB "A" "q" "u1" "m1" 1)
      [StreamEvent.selectSession "B",
       StreamEvent.frame (Frame.partialFrame "x")]).catalog "B" =
      findSession (handleSubmitInit catAB "A" "q" "u1" "m1" 1).catalog "B" :=
  C4_stale_stream_scope "A" "m1" 2 (handleSubmitInit catAB "A" "q" "u1" "m1" 1)
    [StreamEvent.selectSession "B", StreamEvent.frame (Frame.partialFrame "x")]
    "B" (by decide)

/-- C5 (amended): `updateSessionMessage` preserves the target session's
message count and message order (the per-session id sequences are unchanged),
preserves the matched message's `id` and original `timestamp` while applying
the patch to role/text/metric, and never errors: when the session id is
absent the catalog is fully unchanged, and when the session exists but the
message id is absent the message list is unchanged — though, unlike a strict
no-op, the session's `lastActive` is still refreshed. -/
theorem C5_updateById_structure (st : CatalogState) (sid mid : String)
    (u : UpdatedMessage) (now : Nat) :
    ((updateSessionMessage st sid mid u now).sessions.map
        fun s => s.messages.map Message.id) =
      (st.sessions.map fun s => s.messages.map Message.id) ∧
    (updateSessionMessage st sid mid u now).sessions.length =
      st.sessions.length ∧
    (findSession st sid = none → updateSessionMessage st sid mid u now = st) ∧
    (∀ s, findSession st sid = some s → findMessage s mid = none →
      ∃ s', findSession (updateSessionMessage st sid mid u now) sid = some s' ∧
        s'.messages = s.messages ∧ s'.lastActive = now) ∧
    (∀ s m, findSession st sid = some s → findMessage s mid = some m →
      ∃ s', findSession (updateSessionMessage st sid mid u now) sid = some s' ∧
        findMessage s' mid = some
          { id := m.id, role := u.role, text := u.text,
            timestamp := m.timestamp,
            metric := match u.metric with
              | some mm => mm
              | none => m.metric }) := by
  refine ⟨?_, ?_, ?_, ?_, ?_⟩
  · rw [updateSessionMessage_eq_map]
    show ((st.sessions.map (patchSession sid mid u now)).map
      fun s => s.messages.map Message.id) = _
    rw [List.map_map]
    refine map_congr_of _ _ _ fun x _ => ?_
    show (patchSession sid mid u now x).messages.map Message.id =
      x.messages.map Message.id
    unfold patchSession
    split
    · show ((x.messages.map (patchMessage mid u)).map Message.id) = _
      rw [List.map_map]
      exact map_congr_of _ _ _ fun y _ => patchMessage_id mid u y
    · rfl
  · rw [updateSessionMessage_eq_map]
    exact List.length_map _ _
  · intro hnone
    rw [updateSessionMessage_eq_map]
    have hall : ∀ x ∈ st.sessions, patchSession sid mid u now x = x := by
      intro x hx
      have := List.find?_eq_none.mp hnone x hx
      exact patchSession_of_ne _ _ _ _ _ (by simpa using this)
    rw [map_eq_self_of _ _ hall]
  · intro s hsfind hmnone
    have hsid := findSession_some_session_id st sid s hsfind
    refine ⟨patchSession sid mid u now s, ?_, ?_, ?_⟩
    · rw [findSession_update, hsfind]; rfl
    · rw [patchSession_of_eq _ _ _ _ _ hsid]
      show s.messages.map (patchMessage mid u) = s.messages
      refine map_eq_self_of _ _ fun x hx => ?_
      have := List.find?_eq_none.mp hmnone x hx
      unfold patchMessage
      rw [if_neg (by simpa using this)]
    · rw [patchSession_of_eq _ _ _ _ _ hsid]
  · intro s m hsfind hmfind
    have hmid : m.id = mid := by
      unfold findMessage at hmfind
      simpa using List.find?_some hmfind
    obtain ⟨s', h1, h2, _⟩ :=
      findMessage_after_update st sid mid u now s m hsfind hmfind
    refine ⟨s', h1, ?_⟩
    rw [h2, hmid]

/-- C5 counterexample: session `"A"` exists and message id `"ghost"` does not,
yet the call is not a no-op — the session's `lastActive` changes from 0
to 9. -/
theorem C5_counterexample :
    (findSession catA "A").isSome = true ∧
    ((findSession catA "A").map fun s => findMessage s "ghost") = some none ∧
    updateSessionMessage catA "A" "ghost"
      { role := .bot, text := "x", metric := none } 9 ≠ catA := by
  refine ⟨by decide, by decide, by decide⟩

/-- Witness for C5 (amended) at a concrete input: the patch is applied to the
matched message while `id` and `timestamp` survive. -/
theorem C5_witness :
    ∃ s', findSession (updateSessionMessage catAMsg "A" "m1"
        { role := .bot, text := "new text", metric := some (some { tag := 7 }) }
        9) "A" = some s' ∧
      findMessage s' "m1" = some
        { id := "m1", role := .bot, text := "new text", timestamp := 3,
          metric := some { tag := 7 } } :=
  (C5_updateById_structure catAMsg "A" "m1"
      { role := .bot, text := "new text", metric := some (some { tag := 7 }) }
      9).2.2.2.2
    { session_id := "A"
      project_name := "proj"
      messages :=
        [{ id := "m1"
           role := .bot
           text := "old"
           timestamp := 3
           metric := none }]
      createdAt := 0
      lastActive := 0 }
    { id := "m1", role := .bot, text := "old", timestamp := 3, metric := none }
    (by decide) (by decide)

/-- C6 (amended): when the backend call fails, `deleteSession` returns the
error and the catalog is unchanged; on success the session is removed, a
non-active deletion leaves the selection alone, and when the deleted session
was active the new selection is the FIRST remaining session in catalog order
(`remainingSessions[0]`, the earliest-created under creation-order
insertion) — some remaining session whenever any remains — or none when the
catalog is now empty. -/
theorem C6_delete_fallback (st : CatalogState) (sid : String) :
    deleteSession st sid false = Except.error () ∧
    ∀ st', deleteSession st sid true = Except.ok st' →
      st'.sessions = st.sessions.filter (fun s => s.session_id ≠ sid) ∧
      (st.currentSessionId ≠ some sid →
        st'.currentSessionId = st.currentSessionId) ∧
      (st.currentSessionId = some sid → st'.sessions = [] →
        st'.currentSessionId = none) ∧
      (st.currentSessionId = some sid → ∀ first rest,
        st'.sessions = first :: rest →
          st'.currentSessionId = some first.session_id ∧
          first ∈ st'.sessions ∧ first.session_id ≠ sid) := by
  constructor
  · rfl
  · intro st' h
    by_cases hact : st.currentSessionId = some sid
    · have hmatch : deleteSession st sid true =
          match st.sessions.filter (fun s => s.session_id ≠ sid) with
          | [] =>
              Except.ok { sessions := (st.sessions.filter fun s => s.session_id ≠ sid)
                          currentSessionId := none }
          | first :: _ =>
              Except.ok { sessions := (st.sessions.filter fun s => s.session_id ≠ sid)
                          currentSessionId := some first.session_id } := by
        simp [deleteSession, hact]
      cases hfil : st.sessions.filter (fun s => s.session_id ≠ sid) with
      | nil =>
          rw [hmatch, hfil] at h
          injection h with h
          subst h
          refine ⟨rfl, fun hne => absurd hact hne, fun _ _ => rfl, ?_⟩
          intro _ first rest hcons
          exact absurd hcons (List.cons_ne_nil first rest).symm
      | cons first rest =>
          rw [hmatch, hfil] at h
          injection h with h
          subst h
          refine ⟨rfl, fun hne => absurd hact hne, ?_, ?_⟩
          · intro _ hnil
            exact absurd hnil (List.cons_ne_nil first rest)
          · intro _ f r hcons
            injection hcons with h1 h2
            subst h1
            have hmem : first ∈ st.sessions.filter
                (fun s => s.session_id ≠ sid) := by
              rw [hfil]; exact List.mem_cons_self first rest
            have hne : first.session_id ≠ sid := by
              simpa using (List.mem_filter.mp hmem).2
            exact ⟨rfl, List.mem_cons_self first rest, hne⟩
    · have hred : deleteSession st sid true =
          Except.ok { st with
            sessions := (st.sessions.filter fun s => s.session_id ≠ sid) } := by
        simp [deleteSession, hact]
      rw [hred] at h
      injection h with h
      subst h
      exact ⟨rfl, fun _ => rfl, fun habs => absurd habs hact,
        fun habs => absurd habs hact⟩

/-- C6 counterexample: deleting the active session `"A"` from `catABC` leaves
`"B"` (created at time 2) and `"C"` (created at time 3); the code selects
`"B"`, the first remaining session, although the most-recently-created
remaining session is `"C"` — falsifying the claimed fallback rule. -/
theorem C6_counterexample :
    (deleteSession catABC "A" true).map (fun st => st.currentSessionId) =
      Except.ok (some "B") ∧
    (deleteSession catABC "A" true).map
        (fun st => st.sessions.map Session.session_id) =
      Except.ok ["B", "C"] ∧
    (deleteSession catABC "A" true).map
        (fun st => st.sessions.map Session.createdAt) =
      Except.ok [2, 3] ∧
    (2 : Nat) < 3 ∧ ("B" : String) ≠ "C" := by
  refine ⟨by rfl, by rfl, by rfl, by decide, by decide⟩

/-- Witness for C6 (amended) at `catABC`: the failure case returns the error,
and on success the fallback picks the head of the remaining list. -/
theorem C6_witness :
    deleteSession catABC "A" false = Except.error () ∧
    ({ sessions :=
        [{ session_id := "B", project_name := "b", messages := [],
           createdAt := 2, lastActive := 2 },
         { session_id := "C", project_name := "c", messages := [],
           createdAt := 3, lastActive := 3 }]
       currentSessionId := some "B" } : CatalogState).sessions =
      catABC.sessions.filter (fun s => s.session_id ≠ "A") := by
  have h := C6_delete_fallback catABC "A"
  exact ⟨h.1, (h.2 _ (by rfl)).1⟩

/-- C10: every `updateSessionMessage` call whose session id matches an
existing session sets that session's `lastActive` to the call time — with no
requirement that the message id match any message — so `lastActive` advances
on every streamed frame, not only on append and reconnection. -/
theorem C10_update_touches_lastActive (st : CatalogState) (sid mid : String)
    (u : UpdatedMessage) (now : Nat) (s : Session)
    (hs : findSession st sid = some s) :
    ∃ s', findSession (updateSessionMessage st sid mid u now) sid = some s' ∧
      s'.lastActive = now := by
  have hsid := findSession_some_session_id st sid s hs
  refine ⟨patchSession sid mid u now s, ?_, ?_⟩
  · rw [findSession_update, hs]; rfl
  · rw [patchSession_of_eq _ _ _ _ _ hsid]

/-- Witness for C10 at a concrete input where the message id matches nothing:
`lastActive` is still refreshed to 9. -/
theorem C10_witness :
    ∃ s', findSession (updateSessionMessage catA "A" "ghost"
        { role := .bot, text := "x", metric := none } 9) "A" = some s' ∧
      s'.lastActive = 9 :=
  C10_update_touches_lastActive catA "A" "ghost"
    { role := .bot, text := "x", metric := none } 9
    { session_id := "A", project_name := "proj", messages := [],
      createdAt := 0, lastActive := 0 }
    (by rfl)

/-- C3: at the failing input — a valid URL whose `uploadRepository` call
returns session id `"s1"` but whose `storeRepository` call then fails — the
ingest run produces no statistics (the attempt fails), yet the Sidebar's
`sessionId` effect has already registered one session in the catalog,
contradicting the claim that a failed ingest leaves the session count
unchanged. -/
theorem C3_store_failure_registers_session :
    (uploadUrl storeFailBackend true).result = none ∧
    (catalogAfterIngest { sessions := [], currentSessionId := none }
        storeFailBackend true "widgets" 5).sessions.length = 1 ∧
    ({ sessions := [], currentSessionId := none } : CatalogState).sessions.length = 0 := by
  refine ⟨by decide, by decide, by decide⟩

/-- C9 counterexample: with an upload outstanding and the simulated stage
machine sitting in `chunking`, real ingestion success (the success path of
`handleCreateSession`) changes nothing — the reporter stays in `chunking`
rather than short-circuiting to `complete`. -/
theorem C9_counterexample :
    stepReporter chunkingUI ReporterEvent.realSuccess = chunkingUI ∧
    chunkingUI.reporter.currentStep = UploadStep.chunking ∧
    UploadStep.chunking ≠ UploadStep.complete := by
  refine ⟨by decide, by decide, by decide⟩

/-- C9 (amended): on real failure the reporter short-circuits to the `error`
stage from any simulated stage and renders the caller-supplied error text —
the generic Sidebar message, as the backend's own error text is not
propagated; on real success the reporter does NOT short-circuit: the state is
unchanged and the simulated sequence continues until it reaches `complete` on
its own. -/
theorem C9_reporter_shortcircuit (st : UploadUIState) :
    (stepReporter st ReporterEvent.realFailure).reporter.currentStep =
      UploadStep.error ∧
    renderedErrorText (stepReporter st ReporterEvent.realFailure) =
      some uploadErrorMsg ∧
    stepReporter st ReporterEvent.realSuccess = st := by
  refine ⟨rfl, ?_, rfl⟩
  have h1 : renderedErrorText (stepReporter st ReporterEvent.realFailure) =
      some (jsOr (some uploadErrorMsg)
        "An unexpected error occurred. Please try again.") := rfl
  rw [h1, show jsOr (some uploadErrorMsg)
    "An unexpected error occurred. Please try again." = uploadErrorMsg from by decide]

end CodebaseRag
